import Mathlib

/-!
Verification of the SWEAP-Scripts test-result reconciliation engine.

The repository holds three Python scripts (script.py, script_cpp.py,
script_rust.py) sharing one architecture: a status canonicalizer, a
structured-source (JSON/NDJSON) extractor, per-dialect log extractors and a
set-based comparator.  This file is a shallow embedding of that code:
Python dicts become association lists with insert-overwrite, Python sets
become deduplicated lists, the regular expressions are modelled by explicit
backtracking scanners that reproduce the leftmost-match semantics of the
source patterns, and the Python standard-library json module is modelled by
an executable recursive-descent parser over the JSON grammar.

File reading, path checks and report printing are I/O glue outside the
verified core (spec section 1); every extractor is therefore modelled as a
function of the raw input text, and the diagnostic print statements are
dropped.  Python raising an exception is modelled with Except.
-/

namespace Sweap

/-! ## Character and string primitives

Python str methods (strip, rstrip, upper, lower, splitlines) modelled on
the character list underlying a String.  The models cover the ASCII range:
Python additionally treats some rare Unicode characters as whitespace or
cased letters, which no input in this development uses.
-/

/-- Whitespace test used for Python str.strip and the regex class \s. -/
def isSpace (c : Char) : Bool :=
  c = ' ' || c = '\t' || c = '\n' || c = '\r' || c = '\x0b' || c = '\x0c'

/-- Word-character test for the regex class \w (ASCII range). -/
def isWordChar (c : Char) : Bool :=
  ('a' ≤ c && c ≤ 'z') || ('A' ≤ c && c ≤ 'Z') || ('0' ≤ c && c ≤ '9') || c = '_'

/-- ASCII upper-casing of one character, as Python str.upper does per char. -/
def upChar (c : Char) : Char :=
  if 'a' ≤ c && c ≤ 'z' then Char.ofNat (c.toNat - 32) else c

/-- ASCII lower-casing of one character, as Python str.lower does per char. -/
def downChar (c : Char) : Char :=
  if 'A' ≤ c && c ≤ 'Z' then Char.ofNat (c.toNat + 32) else c

/-- Python str.upper. -/
def pyUpper (s : String) : String := (s.toList.map upChar).asString

/-- Python str.lower. -/
def pyLower (s : String) : String := (s.toList.map downChar).asString

/-- Python str.strip on a character list. -/
def stripL (cs : List Char) : List Char :=
  ((cs.dropWhile isSpace).reverse.dropWhile isSpace).reverse

/-- Python str.strip. -/
def pyStrip (s : String) : String := (stripL s.toList).asString

/-- Python str.rstrip on a character list. -/
def rstripL (cs : List Char) : List Char :=
  (cs.reverse.dropWhile isSpace).reverse

/-- Python str.rstrip. -/
def pyRstrip (s : String) : String := (rstripL s.toList).asString

/-- Python slicing s[:n]. -/
def pyTake (n : Nat) (s : String) : String := (s.toList.take n).asString

/-- Splitter for Python str.splitlines: a newline or carriage return ends a
line, a carriage return followed by a newline counts once, and a trailing
terminator produces no extra empty line.  (The exotic terminators \v, \f,
\x1c-\x1e, \x85, U+2028/U+2029 that Python also honours never occur in the
inputs of this development.) -/
def splitlinesAux : List Char → List Char → List String
  | [], acc => if acc.isEmpty then [] else [acc.reverse.asString]
  | '\r' :: '\n' :: rest, acc => acc.reverse.asString :: splitlinesAux rest []
  | '\r' :: rest, acc => acc.reverse.asString :: splitlinesAux rest []
  | '\n' :: rest, acc => acc.reverse.asString :: splitlinesAux rest []
  | c :: rest, acc => splitlinesAux rest (c :: acc)

/-- Python str.splitlines. -/
def splitlines (s : String) : List String := splitlinesAux s.toList []

/-! ## Dictionaries

Python dict modelled as an association list in insertion order; assignment
overwrites in place, lookup returns the binding. -/

/-- Python dict assignment d[k] = v: overwrite in place, else append. -/
def dictInsert {β : Type} : List (String × β) → String → β → List (String × β)
  | [], k, v => [(k, v)]
  | (k', v') :: t, k, v =>
    if k' = k then (k', v) :: t else (k', v') :: dictInsert t k v

/-- Python dict lookup d.get(k): the binding for k, if any. -/
def dictGet? {β : Type} : List (String × β) → String → Option β
  | [], _ => none
  | (k', v) :: t, k => if k' = k then some v else dictGet? t k

/-! ## Status canonicalizer (script.py lines 12-19 and 40-42,
script_cpp.py lines 13-21 and 49-51, script_rust.py lines 12-21 and 48-50) -/

/-- CANON_STATUSES of script.py (generic pytest dialect). -/
def canonTableGeneric : List (String × String) :=
  [("PASSED", "PASSED"), ("FAILED", "FAILED"), ("SKIPPED", "SKIPPED"),
   ("XFAILED", "XFAILED"), ("XPASS", "XPASS"), ("ERROR", "ERROR")]

/-- CANON_STATUSES of script_cpp.py: the generic table plus OK to PASSED. -/
def canonTableCpp : List (String × String) :=
  canonTableGeneric ++ [("OK", "PASSED")]

/-- CANON_STATUSES of script_rust.py: the generic table plus OK to PASSED
and IGNORED to SKIPPED. -/
def canonTableRust : List (String × String) :=
  canonTableGeneric ++ [("OK", "PASSED"), ("IGNORED", "SKIPPED")]

/-- The _canon_status helper shared by the three scripts: strip, upper-case,
fold through the dialect synonym table, return unknown tokens verbatim. -/
def canonStatus (table : List (String × String)) (s : String) : String :=
  let u := pyUpper (pyStrip s)
  (dictGet? table u).getD u

/-- _canon_status of script.py. -/
def canonGeneric (s : String) : String := canonStatus canonTableGeneric s

/-- _canon_status of script_cpp.py. -/
def canonCpp (s : String) : String := canonStatus canonTableCpp s

/-- _canon_status of script_rust.py. -/
def canonRust (s : String) : String := canonStatus canonTableRust s

/-! ## Comparator (script.py lines 28-38 and 127-155; the compare functions
of script_cpp.py and script_rust.py are character-for-character the same) -/

/-- ComparisonResult dataclass (script.py lines 28-38). -/
structure ComparisonResult where
  same : Bool
  counts_equal : Bool
  names_equal : Bool
  statuses_equal : Bool
  count_json : Nat
  count_log : Nat
  only_in_json : List String
  only_in_log : List String
  status_mismatches : List (String × String × String)
  deriving DecidableEq, Repr

/-- Key set of a result dict: set(d) in Python, kept as a deduplicated list
(first occurrences) so that its length is the set's cardinality. -/
def keyNames (m : List (String × String)) : List String :=
  (m.map Prod.fst).dedup

/-- sorted(set(a) - set(b)) of script.py lines 131-132, via insertion sort
(Python sorted agrees with any sort on a duplicate-free list). -/
def onlyIn (a b : List (String × String)) : List String :=
  List.insertionSort (· ≤ ·)
    ((keyNames a).filter (fun n => !(keyNames b).contains n))

/-- sorted(set(a) & set(b)) used by the mismatch loop of script.py line 136. -/
def commonNames (a b : List (String × String)) : List String :=
  List.insertionSort (· ≤ ·)
    ((keyNames a).filter (fun n => (keyNames b).contains n))

/-- status_mismatches comprehension of script.py lines 134-138. -/
def mismatchesOf (a b : List (String × String)) :
    List (String × String × String) :=
  (commonNames a b).filterMap (fun n =>
    match dictGet? a n, dictGet? b n with
    | some x, some y => if x = y then none else some (n, x, y)
    | _, _ => none)

/-- compare of script.py lines 127-155. -/
def compare (jsonResults logResults : List (String × String)) :
    ComparisonResult :=
  let countsEqual := (keyNames jsonResults).length == (keyNames logResults).length
  let namesEqual := (onlyIn jsonResults logResults).isEmpty
      && (onlyIn logResults jsonResults).isEmpty
  let statusesEqual := (mismatchesOf jsonResults logResults).isEmpty
  { same := countsEqual && namesEqual && statusesEqual
    counts_equal := countsEqual
    names_equal := namesEqual
    statuses_equal := statusesEqual
    count_json := (keyNames jsonResults).length
    count_log := (keyNames logResults).length
    only_in_json := onlyIn jsonResults logResults
    only_in_log := onlyIn logResults jsonResults
    status_mismatches := mismatchesOf jsonResults logResults }

/-! ## Comparator lemmas -/

theorem dictGet?_some_iff_mem {m : List (String × String)} {n : String} :
    (∃ v, dictGet? m n = some v) ↔ n ∈ m.map Prod.fst := by
  induction m with
  | nil => simp [dictGet?]
  | cons p t ih =>
    obtain ⟨k, v⟩ := p
    by_cases h : k = n
    · subst h; simp [dictGet?]
    · simp [dictGet?, h, ih, Ne.symm h]

theorem mem_keyNames_iff {m : List (String × String)} {n : String} :
    n ∈ keyNames m ↔ ∃ v, dictGet? m n = some v := by
  rw [keyNames, List.mem_dedup, ← dictGet?_some_iff_mem]

theorem mem_keyNames_iff_toFinset {m : List (String × String)} {n : String} :
    n ∈ keyNames m ↔ n ∈ (m.map Prod.fst).toFinset := by
  simp [keyNames, List.mem_dedup]

theorem onlyIn_eq_nil_iff {a b : List (String × String)} :
    onlyIn a b = [] ↔ ∀ n ∈ keyNames a, n ∈ keyNames b := by
  constructor
  · intro h n hn
    by_contra hnb
    have hmem : n ∈ onlyIn a b := by
      rw [onlyIn, List.mem_insertionSort, List.mem_filter]
      exact ⟨hn, by simpa using hnb⟩
    rw [h] at hmem
    exact absurd hmem (List.not_mem_nil n)
  · intro h
    have : ∀ x ∈ (keyNames a).filter (fun n => !(keyNames b).contains n), False := by
      intro x hx
      rw [List.mem_filter] at hx
      have := h x hx.1
      simp at hx
      exact hx.2 this
    have hnil : (keyNames a).filter (fun n => !(keyNames b).contains n) = [] := by
      cases hf : (keyNames a).filter (fun n => !(keyNames b).contains n) with
      | nil => rfl
      | cons y ys => exact absurd (hf ▸ List.mem_cons_self y ys) (fun hm => this y hm)
    rw [onlyIn, hnil]
    rfl

theorem keyNames_length_eq_card (m : List (String × String)) :
    (keyNames m).length = (m.map Prod.fst).toFinset.card := by
  rw [List.card_toFinset, keyNames]

theorem mismatchesOf_eq_nil_iff {a b : List (String × String)} :
    mismatchesOf a b = []
      ↔ ∀ n, n ∈ keyNames a → n ∈ keyNames b → dictGet? a n = dictGet? b n := by
  rw [mismatchesOf, List.filterMap_eq_nil_iff]
  constructor
  · intro h n hna hnb
    obtain ⟨x, hx⟩ := mem_keyNames_iff.mp hna
    obtain ⟨y, hy⟩ := mem_keyNames_iff.mp hnb
    have hmem : n ∈ commonNames a b := by
      rw [commonNames, List.mem_insertionSort, List.mem_filter]
      exact ⟨hna, by simpa using hnb⟩
    have := h n hmem
    rw [hx, hy] at this ⊢
    by_cases hxy : x = y
    · rw [hxy]
    · simp [hxy] at this
  · intro h n hn
    rw [commonNames, List.mem_insertionSort, List.mem_filter] at hn
    have hna := hn.1
    have hnb : n ∈ keyNames b := by
      have := hn.2
      simpa using this
    obtain ⟨x, hx⟩ := mem_keyNames_iff.mp hna
    obtain ⟨y, hy⟩ := mem_keyNames_iff.mp hnb
    have hxy : x = y := by
      have := h n hna hnb
      rw [hx, hy] at this
      exact Option.some_injective _ this
    rw [hx, hy, hxy]
    simp

/-- names_equal true exactly when each key set is contained in the other. -/
theorem names_equal_iff {a b : List (String × String)} :
    (compare a b).names_equal = true
      ↔ (∀ n ∈ keyNames a, n ∈ keyNames b) ∧ (∀ n ∈ keyNames b, n ∈ keyNames a) := by
  show ((onlyIn a b).isEmpty && (onlyIn b a).isEmpty) = true ↔ _
  rw [Bool.and_eq_true, List.isEmpty_iff, List.isEmpty_iff,
    onlyIn_eq_nil_iff, onlyIn_eq_nil_iff]

/-- names_equal true forces the two key Finsets to coincide. -/
theorem names_equal_toFinset {a b : List (String × String)}
    (h : (compare a b).names_equal = true) :
    (a.map Prod.fst).toFinset = (b.map Prod.fst).toFinset := by
  obtain ⟨h1, h2⟩ := names_equal_iff.mp h
  apply Finset.ext
  intro n
  constructor
  · intro hn
    exact mem_keyNames_iff_toFinset.mp (h1 n (mem_keyNames_iff_toFinset.mpr hn))
  · intro hn
    exact mem_keyNames_iff_toFinset.mp (h2 n (mem_keyNames_iff_toFinset.mpr hn))

/-- names_equal implies counts_equal: equal key sets have equal cardinality. -/
theorem names_equal_imp_counts {a b : List (String × String)}
    (h : (compare a b).names_equal = true) :
    (compare a b).counts_equal = true := by
  show ((keyNames a).length == (keyNames b).length) = true
  rw [beq_iff_eq, keyNames_length_eq_card, keyNames_length_eq_card,
    names_equal_toFinset h]

/-- C1: for every pair of ResultSets A and B (in particular every non-empty
pair), compare(A,B).same is true if and only if A and B are equal as
mappings: the two key sets coincide and every common name is assigned the
same outcome by both. -/
theorem claim_c1_same_iff_equal_mappings (A B : List (String × String)) :
    (compare A B).same = true
      ↔ ((A.map Prod.fst).toFinset = (B.map Prod.fst).toFinset
          ∧ ∀ n, n ∈ (A.map Prod.fst).toFinset → n ∈ (B.map Prod.fst).toFinset →
              dictGet? A n = dictGet? B n) := by
  have hsame : (compare A B).same
      = ((compare A B).counts_equal && (compare A B).names_equal
          && (compare A B).statuses_equal) := rfl
  constructor
  · intro h
    rw [hsame, Bool.and_eq_true, Bool.and_eq_true] at h
    obtain ⟨⟨_, hn⟩, hst⟩ := h
    refine ⟨names_equal_toFinset hn, ?_⟩
    intro n hna hnb
    have hag := mismatchesOf_eq_nil_iff.mp (List.isEmpty_iff.mp hst)
    exact hag n (mem_keyNames_iff_toFinset.mpr hna) (mem_keyNames_iff_toFinset.mpr hnb)
  · intro ⟨hset, hag⟩
    have hn : (compare A B).names_equal = true := by
      rw [names_equal_iff]
      constructor
      · intro n hn
        rw [mem_keyNames_iff_toFinset] at hn ⊢
        rw [← hset]; exact hn
      · intro n hn
        rw [mem_keyNames_iff_toFinset] at hn ⊢
        rw [hset]; exact hn
    have hc := names_equal_imp_counts hn
    have hst : (compare A B).statuses_equal = true := by
      rw [show (compare A B).statuses_equal = (mismatchesOf A B).isEmpty from rfl,
        List.isEmpty_iff, mismatchesOf_eq_nil_iff]
      intro n hna hnb
      exact hag n (mem_keyNames_iff_toFinset.mp hna) (mem_keyNames_iff_toFinset.mp hnb)
    rw [hsame, hn, hc, hst]
    rfl

/-- C5: counts_equal holds exactly when the key sets have equal cardinality,
names_equal holds exactly when their symmetric difference is empty, and the
two flags are independent: two disjoint singleton mappings report
counts_equal true together with names_equal false. -/
theorem claim_c5_counts_and_names_flags :
    (∀ A B : List (String × String),
      ((compare A B).counts_equal = true
          ↔ (A.map Prod.fst).toFinset.card = (B.map Prod.fst).toFinset.card)
        ∧ ((compare A B).names_equal = true
          ↔ ((A.map Prod.fst).toFinset \ (B.map Prod.fst).toFinset)
              ∪ ((B.map Prod.fst).toFinset \ (A.map Prod.fst).toFinset) = ∅))
      ∧ (compare [("a", "PASSED")] [("b", "FAILED")]).counts_equal = true
      ∧ (compare [("a", "PASSED")] [("b", "FAILED")]).names_equal = false := by
  refine ⟨?_, by decide, by decide⟩
  intro A B
  constructor
  · show ((keyNames A).length == (keyNames B).length) = true ↔ _
    rw [beq_iff_eq, keyNames_length_eq_card, keyNames_length_eq_card]
  · rw [names_equal_iff, Finset.union_eq_empty,
      Finset.sdiff_eq_empty_iff_subset, Finset.sdiff_eq_empty_iff_subset]
    constructor
    · intro ⟨h1, h2⟩
      constructor
      · intro n hn
        exact mem_keyNames_iff_toFinset.mp (h1 n (mem_keyNames_iff_toFinset.mpr hn))
      · intro n hn
        exact mem_keyNames_iff_toFinset.mp (h2 n (mem_keyNames_iff_toFinset.mpr hn))
    · intro ⟨h1, h2⟩
      constructor
      · intro n hn
        exact mem_keyNames_iff_toFinset.mpr (h1 (mem_keyNames_iff_toFinset.mp hn))
      · intro n hn
        exact mem_keyNames_iff_toFinset.mpr (h2 (mem_keyNames_iff_toFinset.mp hn))

/-- C8: swapping the arguments of compare swaps the two difference lists:
only_in_json of compare(A,B) is only_in_log of compare(B,A) and vice versa. -/
theorem claim_c8_diff_role_swap (A B : List (String × String)) :
    (compare A B).only_in_json = (compare B A).only_in_log
      ∧ (compare A B).only_in_log = (compare B A).only_in_json :=
  ⟨rfl, rfl⟩

/-- C10: names_equal implies counts_equal (stated as boolean absorption),
hence the same flag equals the conjunction of names_equal and
statuses_equal alone: the counts_equal conjunct in same is redundant. -/
theorem claim_c10_counts_redundant (A B : List (String × String)) :
    ((compare A B).names_equal && (compare A B).counts_equal)
        = (compare A B).names_equal
      ∧ (compare A B).same
        = ((compare A B).names_equal && (compare A B).statuses_equal) := by
  have hsame : (compare A B).same
      = ((compare A B).counts_equal && (compare A B).names_equal
          && (compare A B).statuses_equal) := rfl
  cases hn : (compare A B).names_equal with
  | false => rw [hsame, hn]; simp
  | true =>
    have hc := names_equal_imp_counts hn
    rw [hsame, hn, hc]; simp

/-- C9: the status canonicalizer trims and upper-cases its argument and
folds the dialect synonym table: the C++ dialect maps OK to PASSED, the
systems-language dialect maps OK to PASSED and IGNORED to SKIPPED, a token
absent from the table is returned verbatim after trimming and upper-casing,
and canonicalize of a spaced lower-case token agrees with canonicalize of
the bare upper-case token in every dialect. -/
theorem claim_c9_canonicalizer :
    canonCpp "OK" = "PASSED"
      ∧ canonRust "OK" = "PASSED"
      ∧ canonRust "IGNORED" = "SKIPPED"
      ∧ canonGeneric " passed " = canonGeneric "PASSED"
      ∧ canonCpp " passed " = canonCpp "PASSED"
      ∧ canonRust " passed " = canonRust "PASSED"
      ∧ canonGeneric " passed " = "PASSED"
      ∧ canonGeneric "ok" = "OK"
      ∧ canonGeneric "RERUN" = "RERUN"
      ∧ (∀ table s, dictGet? table (pyUpper (pyStrip s)) = none →
          canonStatus table s = pyUpper (pyStrip s)) := by
  refine ⟨by decide, by decide, by decide, by decide, by decide, by decide,
    by decide, by decide, by decide, ?_⟩
  intro table s h
  rw [canonStatus, h]
  rfl

/-- Witness for C9: the verbatim-upper-casing clause instantiated at the
unknown token flaky in the generic dialect. -/
theorem claim_c9_canonicalizer_witness :
    canonStatus canonTableGeneric "flaky" = pyUpper (pyStrip "flaky") :=
  claim_c9_canonicalizer.2.2.2.2.2.2.2.2.2 canonTableGeneric "flaky" (by decide)

/-! ## Generic line-oriented log extractor (script.py lines 21-26, 104-125)

LOG_LINE_RE is an anchored pattern: a lazy non-empty name, one or more
whitespace characters, a status token from a fixed alternation, then
optionally a word boundary followed by arbitrary text.  Because the name
group is lazy, the engine tries every name end from the left; because every
status token starts with a non-space letter, the greedy whitespace run
before the token never backtracks usefully; and because no token is a
prefix of another, at most one alternative matches at a given position.
The scanner below reproduces exactly this search order. -/

/-- The status alternation of LOG_LINE_RE, in source order. -/
def pytestTokens : List String :=
  ["PASSED", "FAILED", "SKIPPED", "XFAILED", "XPASS", "ERROR", "RERUN"]

/-- First token of the alternation that is a prefix of the input, with the
remaining characters. -/
def tokenAt : List String → List Char → Option (String × List Char)
  | [], _ => none
  | t :: ts, s =>
    if t.toList.isPrefixOf s then some (t, s.drop t.toList.length)
    else tokenAt ts s

/-- The trailing (?:\b.*)?$ of LOG_LINE_RE after a token ending in a word
character: the rest must be empty or start with a non-word character. -/
def tailBoundaryOk : List Char → Bool
  | [] => true
  | c :: _ => !isWordChar c

/-- Scanner for LOG_LINE_RE: revName holds the name candidate reversed; at
each position first try to read whitespace, a status token and a valid
tail, otherwise extend the name by one character, exactly as the lazy name
group backtracks. -/
def logLineMatchAux : List Char → List Char → Option (String × String)
  | _, [] => none
  | revName, c :: r =>
    match (if isSpace c then
            match tokenAt pytestTokens (List.dropWhile isSpace (c :: r)) with
            | some (t, tail) =>
              if tailBoundaryOk tail then some (revName.reverse.asString, t)
              else none
            | none => none
          else none) with
    | some res => some res
    | none => logLineMatchAux (c :: revName) r

/-- LOG_LINE_RE.match on one line: the captured name and status groups. -/
def logLineMatch (line : String) : Option (String × String) :=
  match line.toList with
  | [] => none
  | c :: r => logLineMatchAux [c] r

/-- Body of the parse_pytest_log loop for one raw line (script.py lines
110-121): strip, skip blanks and non-matching lines, canonicalize the
status, drop RERUN, and otherwise produce the binding to store. -/
def pytestLineEntry (raw : String) : Option (String × String) :=
  let line := pyStrip raw
  if line = "" then none
  else
    match logLineMatch line with
    | none => none
    | some (name, statusTok) =>
      let status := canonGeneric statusTok
      if status = "RERUN" then none else some (pyStrip name, status)

/-- One iteration of the parse_pytest_log loop acting on the dict. -/
def pytestStep (m : List (String × String)) (raw : String) :
    List (String × String) :=
  match pytestLineEntry raw with
  | none => m
  | some (n, st) => dictInsert m n st

/-- The dict built by parse_pytest_log before the emptiness check. -/
def pytestMap (txt : String) : List (String × String) :=
  (splitlines txt).foldl pytestStep []

/-- The sequence of stored bindings, in log order. -/
def pytestEntries (txt : String) : List (String × String) :=
  (splitlines txt).filterMap pytestLineEntry

/-- parse_pytest_log of script.py lines 104-125, on the file's text. -/
def parsePytestLog (txt : String) : Except String (List (String × String)) :=
  if (pytestMap txt).isEmpty then
    .error "Parsed log but found zero test outcome lines. Check log format."
  else .ok (pytestMap txt)

/-- The value of the last binding for a name in a list of bindings. -/
def lastVal : List (String × String) → String → Option String
  | [], _ => none
  | e :: t, n =>
    match lastVal t n with
    | some v => some v
    | none => if e.1 = n then some e.2 else none

theorem dictGet?_dictInsert (m : List (String × String)) (k v n : String) :
    dictGet? (dictInsert m k v) n = if k = n then some v else dictGet? m n := by
  induction m with
  | nil => simp [dictInsert, dictGet?]
  | cons p t ih =>
    obtain ⟨k', v'⟩ := p
    by_cases h : k' = k
    · subst h
      by_cases h2 : k' = n <;> simp [dictInsert, dictGet?, h2]
    · by_cases h2 : k' = n
      · subst h2
        have : ¬ k = k' := fun hk => h hk.symm
        simp [dictInsert, dictGet?, h, this]
      · simp [dictInsert, dictGet?, h, h2, ih]

theorem dictGet?_foldl_insert (es : List (String × String)) :
    ∀ (m : List (String × String)) (n : String),
      dictGet? (es.foldl (fun m e => dictInsert m e.1 e.2) m) n
        = match lastVal es n with
          | some v => some v
          | none => dictGet? m n := by
  induction es with
  | nil => intro m n; rfl
  | cons e t ih =>
    intro m n
    rw [List.foldl_cons, ih, lastVal]
    cases lastVal t n with
    | some v => rfl
    | none =>
      rw [dictGet?_dictInsert]
      by_cases h : e.1 = n
      · simp [h]
      · simp [h]

theorem foldl_pytestStep_eq (ls : List String) :
    ∀ m, ls.foldl pytestStep m
      = (ls.filterMap pytestLineEntry).foldl (fun m e => dictInsert m e.1 e.2) m := by
  induction ls with
  | nil => intro m; rfl
  | cons l t ih =>
    intro m
    rw [List.foldl_cons, List.filterMap_cons]
    cases h : pytestLineEntry l with
    | none => rw [show pytestStep m l = m by rw [pytestStep, h]]; exact ih m
    | some e =>
      rw [show pytestStep m l = dictInsert m e.1 e.2 by rw [pytestStep, h]]
      exact ih (dictInsert m e.1 e.2)

/-- C2: in the generic line-oriented extractor a matching line whose status
canonicalizes to RERUN leaves the dict unchanged, the outcome recorded for
a name is the one of its last non-RERUN matching line, and the log with a
RERUN line for X followed by a PASSED line for X parses successfully to
the single binding X to PASSED. -/
theorem claim_c2_rerun_discarded_last_wins :
    (∀ (m : List (String × String)) (raw n st : String),
        logLineMatch (pyStrip raw) = some (n, st) → canonGeneric st = "RERUN" →
          pytestStep m raw = m)
      ∧ (∀ txt n, dictGet? (pytestMap txt) n = lastVal (pytestEntries txt) n)
      ∧ parsePytestLog "X RERUN\nX PASSED" = .ok [("X", "PASSED")] := by
  refine ⟨?_, ?_, by rfl⟩
  · intro m raw n st hmatch hcanon
    have hline : pyStrip raw ≠ "" := by
      intro h
      rw [h] at hmatch
      simp [logLineMatch] at hmatch
    rw [pytestStep, pytestLineEntry]
    simp only [hline, if_false, hmatch, hcanon, if_pos rfl, ite_true]
  · intro txt n
    rw [pytestMap, pytestEntries, foldl_pytestStep_eq, dictGet?_foldl_insert]
    cases lastVal ((splitlines txt).filterMap pytestLineEntry) n with
    | some v => rfl
    | none => rfl

/-- Witness for C2: the RERUN-discard clause applied to a concrete dict and
the concrete line X RERUN. -/
theorem claim_c2_rerun_discarded_last_wins_witness :
    pytestStep [("a", "FAILED")] "X RERUN" = [("a", "FAILED")] :=
  claim_c2_rerun_discarded_last_wins.1 [("a", "FAILED")] "X RERUN" "X" "RERUN"
    (by decide) (by decide)

/-! ## Model of the Python json module

The scripts call json.loads; this section gives an executable
recursive-descent parser for the JSON grammar that json.loads accepts
(minus the nonstandard NaN/Infinity extensions, which no input of this
development uses).  A successful parse must consume the whole input up to
trailing whitespace, as json.loads requires; any other situation is the
JSONDecodeError case.  Numbers are kept as their lexeme, since no script
ever computes with a numeric value.  Objects are normalized to Python dict
semantics (later duplicate key wins) at construction. -/

/-- A parsed JSON value. -/
inductive Json where
  | jnull
  | jbool (b : Bool)
  | jnum (lit : String)
  | jstr (s : String)
  | jarr (elems : List Json)
  | jobj (fields : List (String × Json))

/-- Whitespace accepted between JSON tokens (exactly the four characters
the Python json module skips). -/
def isJsonWs (c : Char) : Bool :=
  c = ' ' || c = '\t' || c = '\n' || c = '\r'

/-- Value of one hexadecimal digit. -/
def hexVal (c : Char) : Option Nat :=
  if '0' ≤ c && c ≤ '9' then some (c.toNat - 48)
  else if 'a' ≤ c && c ≤ 'f' then some (c.toNat - 87)
  else if 'A' ≤ c && c ≤ 'F' then some (c.toNat - 55)
  else none

/-- ASCII digit test. -/
def isDigitCh (c : Char) : Bool := '0' ≤ c && c ≤ '9'

/-- Body of a JSON string literal after the opening quote: standard escape
sequences, a strict ban on raw control characters, and a four-digit \u
escape.  (Surrogate-pair recombination is not modelled; no input of this
development uses \u escapes.) -/
def parseStrAux : Nat → List Char → List Char → Option (String × List Char)
  | 0, _, _ => none
  | _ + 1, [], _ => none
  | f + 1, c :: rest, acc =>
    if c = '"' then some (acc.reverse.asString, rest)
    else if c = '\\' then
      match rest with
      | [] => none
      | e :: rest2 =>
        if e = '"' then parseStrAux f rest2 ('"' :: acc)
        else if e = '\\' then parseStrAux f rest2 ('\\' :: acc)
        else if e = '/' then parseStrAux f rest2 ('/' :: acc)
        else if e = 'b' then parseStrAux f rest2 ('\x08' :: acc)
        else if e = 'f' then parseStrAux f rest2 ('\x0c' :: acc)
        else if e = 'n' then parseStrAux f rest2 ('\n' :: acc)
        else if e = 'r' then parseStrAux f rest2 ('\r' :: acc)
        else if e = 't' then parseStrAux f rest2 ('\t' :: acc)
        else if e = 'u' then
          match rest2 with
          | h1 :: h2 :: h3 :: h4 :: rest3 =>
            match hexVal h1, hexVal h2, hexVal h3, hexVal h4 with
            | some a, some b, some c2, some d =>
              parseStrAux f rest3
                (Char.ofNat (((a * 16 + b) * 16 + c2) * 16 + d) :: acc)
            | _, _, _, _ => none
          | _ => none
        else none
    else if c.toNat < 32 then none
    else parseStrAux f rest (c :: acc)

/-- JSON number lexeme, following the NUMBER_RE of the Python json module:
optional minus, zero or a nonzero-led digit run, optional fraction with at
least one digit, optional exponent with at least one digit. -/
def parseNumber (cs : List Char) : Option (String × List Char) :=
  let sp := match cs with
    | '-' :: r => (['-'], r)
    | _ => (([] : List Char), cs)
  match sp.2 with
  | [] => none
  | c :: r1tail =>
    if !isDigitCh c then none
    else
      let ip := if c = '0' then ([c], r1tail) else (c :: r1tail).span isDigitCh
      let fp := match ip.2 with
        | '.' :: d :: rest =>
          if isDigitCh d then
            let ds := (d :: rest).span isDigitCh
            ('.' :: ds.1, ds.2)
          else (([] : List Char), ip.2)
        | _ => (([] : List Char), ip.2)
      let ep := match fp.2 with
        | e :: rest =>
          if e = 'e' || e = 'E' then
            let sn := match rest with
              | '+' :: r => (['+'], r)
              | '-' :: r => (['-'], r)
              | _ => (([] : List Char), rest)
            match sn.2 with
            | d :: _ =>
              if isDigitCh d then
                let ds := sn.2.span isDigitCh
                (e :: (sn.1 ++ ds.1), ds.2)
              else (([] : List Char), fp.2)
            | [] => (([] : List Char), fp.2)
          else (([] : List Char), fp.2)
        | [] => (([] : List Char), fp.2)
      some ((sp.1 ++ ip.1 ++ fp.1 ++ ep.1).asString, ep.2)

/-- Python dict built from object members in order, later key wins. -/
def jsonObjOfFields (fs : List (String × Json)) : List (String × Json) :=
  fs.foldl (fun m kv => dictInsert m kv.1 kv.2) []

/-- Parser mode: a single value, the elements after an opening bracket, or
the members after an opening brace. -/
inductive JMode where
  | mval
  | melems
  | mfields

/-- Result fragment for each parser mode. -/
inductive JFrag where
  | val (v : Json)
  | elems (vs : List Json)
  | fields (fs : List (String × Json))

/-- Fuelled recursive-descent parser for the JSON grammar. -/
def parseJ : Nat → JMode → List Char → Option (JFrag × List Char)
  | 0, _, _ => none
  | f + 1, JMode.mval, s0 =>
    let s := List.dropWhile isJsonWs s0
    match s with
    | [] => none
    | c :: rest =>
      if c = '"' then
        match parseStrAux (rest.length + 1) rest [] with
        | some (str, r) => some (JFrag.val (Json.jstr str), r)
        | none => none
      else if c = '{' then
        let s2 := List.dropWhile isJsonWs rest
        match s2 with
        | '}' :: r2 => some (JFrag.val (Json.jobj []), r2)
        | _ =>
          match parseJ f JMode.mfields s2 with
          | some (JFrag.fields fs, r2) =>
            some (JFrag.val (Json.jobj (jsonObjOfFields fs)), r2)
          | _ => none
      else if c = '[' then
        let s2 := List.dropWhile isJsonWs rest
        match s2 with
        | ']' :: r2 => some (JFrag.val (Json.jarr []), r2)
        | _ =>
          match parseJ f JMode.melems s2 with
          | some (JFrag.elems vs, r2) => some (JFrag.val (Json.jarr vs), r2)
          | _ => none
      else if "true".toList.isPrefixOf s then
        some (JFrag.val (Json.jbool true), s.drop 4)
      else if "false".toList.isPrefixOf s then
        some (JFrag.val (Json.jbool false), s.drop 5)
      else if "null".toList.isPrefixOf s then
        some (JFrag.val Json.jnull, s.drop 4)
      else
        match parseNumber s with
        | some (lit, r) => some (JFrag.val (Json.jnum lit), r)
        | none => none
  | f + 1, JMode.melems, s =>
    match parseJ f JMode.mval s with
    | some (JFrag.val v, r) =>
      match List.dropWhile isJsonWs r with
      | ',' :: r2 =>
        match parseJ f JMode.melems r2 with
        | some (JFrag.elems vs, r3) => some (JFrag.elems (v :: vs), r3)
        | _ => none
      | ']' :: r2 => some (JFrag.elems [v], r2)
      | _ => none
    | _ => none
  | f + 1, JMode.mfields, s0 =>
    match List.dropWhile isJsonWs s0 with
    | '"' :: rest =>
      match parseStrAux (rest.length + 1) rest [] with
      | some (k, r) =>
        match List.dropWhile isJsonWs r with
        | ':' :: r2 =>
          match parseJ f JMode.mval r2 with
          | some (JFrag.val v, r3) =>
            match List.dropWhile isJsonWs r3 with
            | ',' :: r4 =>
              match parseJ f JMode.mfields r4 with
              | some (JFrag.fields fs, r5) => some (JFrag.fields ((k, v) :: fs), r5)
              | _ => none
            | '}' :: r4 => some (JFrag.fields [(k, v)], r4)
            | _ => none
          | _ => none
        | _ => none
      | none => none
    | _ => none

/-- json.loads: parse one value and require only whitespace after it;
every failure is the JSONDecodeError case, collapsed to none. -/
def jsonParse (txt : String) : Option Json :=
  let cs := txt.toList
  match parseJ (2 * cs.length + 8) JMode.mval cs with
  | some (JFrag.val v, rest) =>
    if (List.dropWhile isJsonWs rest).isEmpty then some v else none
  | _ => none

/-- Python str() of a decoded JSON value.  Scalar cases are exact; for a
float lexeme and for containers Python prints a repr that no verified
claim depends on, so those cases are kept opaque here. -/
def pyStr : Json → String
  | Json.jstr s => s
  | Json.jnull => "None"
  | Json.jbool true => "True"
  | Json.jbool false => "False"
  | Json.jnum lit => lit
  | Json.jarr _ => "[...]"
  | Json.jobj _ => "{...}"

/-- Zero test for a JSON number lexeme, for Python truthiness. -/
def jnumIsZero (lit : String) : Bool :=
  let cs := match lit.toList with
    | '-' :: r => r
    | l => l
  let mant := cs.takeWhile (fun c => !(c = 'e' || c = 'E'))
  !mant.isEmpty && mant.all (fun c => c = '0' || c = '.')

/-- Python truthiness of a decoded JSON value. -/
def jTruthy : Json → Bool
  | Json.jnull => false
  | Json.jbool b => b
  | Json.jnum lit => !jnumIsZero lit
  | Json.jstr s => !(s == "")
  | Json.jarr l => !l.isEmpty
  | Json.jobj fs => !fs.isEmpty

/-- Python x or y on JSON values: x if truthy, else y. -/
def pyOr (a b : Json) : Json := if jTruthy a then a else b

/-- Python d.get(k, default) on a decoded JSON object. -/
def jGetD (fs : List (String × Json)) (k : String) (d : Json) : Json :=
  (dictGet? fs k).getD d

/-! ## Structured-source extractor (script.py lines 58-102; identical in
script_cpp.py lines 65-109 and script_rust.py lines 65-110 apart from the
dialect synonym table passed to the canonicalizer)

The Python error messages are modelled structurally: each ValueError raised
by parse_results_json becomes one ExtractError constructor carrying the
data interpolated into the message.  In particular ndjsonLineError carries
the reported line number, the bounded preview of the offending line and
the preview of the start of the file, exactly the three data the f-string
at script.py lines 83-87 embeds. -/

/-- Errors of the structured-source extractor. -/
inductive ExtractError where
  | notTestsList
  | ndjsonLineError (lineNo : Nat) (linePreview : String) (filePreview : String)
  | entryNotObject (idx : Nat)
  | entryMissingName (idx : Nat)
  | zeroTests
  deriving DecidableEq, Repr

/-- Key search of _extract_tests_array over the candidate keys, in order. -/
def extractKeyLoop (fs : List (String × Json)) :
    List String → Except ExtractError (List Json)
  | [] => .error ExtractError.notTestsList
  | k :: ks =>
    match dictGet? fs k with
    | some (Json.jarr l) => .ok l
    | _ => extractKeyLoop fs ks

/-- _extract_tests_array of script.py lines 58-65. -/
def extractTestsArray (v : Json) : Except ExtractError (List Json) :=
  match v with
  | Json.jarr l => .ok l
  | Json.jobj fs => extractKeyLoop fs ["tests", "items", "results", "cases"]
  | _ => .error ExtractError.notTestsList

/-- The entry loop of parse_results_json (script.py lines 90-98): each
entry must be an object with a non-empty name; the canonicalized status is
stored with dict overwrite semantics. -/
def buildEntries (canon : String → String) :
    Nat → List (String × String) → List Json →
      Except ExtractError (List (String × String))
  | _, acc, [] => .ok acc
  | i, acc, item :: rest =>
    match item with
    | Json.jobj fs =>
      let name := pyStrip (pyStr (jGetD fs "name" (Json.jstr "")))
      if name = "" then .error (ExtractError.entryMissingName i)
      else
        let status := canon (pyStrip (pyStr (jGetD fs "status" (Json.jstr ""))))
        buildEntries canon (i + 1) (dictInsert acc name status) rest
    | _ => .error (ExtractError.entryNotObject i)

/-- The non-blank lines the NDJSON fallback enumerates (script.py line 76):
note the enumeration index counts only these filtered lines. -/
def nonBlankLines (txt : String) : List String :=
  (splitlines txt).filter (fun ln => !(pyStrip ln == ""))

/-- First line of the NDJSON fallback that fails to parse, with its
enumeration index. -/
def firstBadLine : Nat → List String → Option (Nat × String)
  | _, [] => none
  | i, ln :: rest =>
    match jsonParse ln with
    | some _ => firstBadLine (i + 1) rest
    | none => some (i, ln)

/-- The NDJSON fallback loop of script.py lines 76-88: parse each
non-blank line, failing on the first bad one with its index and text. -/
def ndjsonObjs : Nat → List String → Except (Nat × String) (List Json)
  | _, [] => .ok []
  | i, ln :: rest =>
    match jsonParse ln with
    | some v =>
      match ndjsonObjs (i + 1) rest with
      | .ok vs => .ok (v :: vs)
      | .error e => .error e
    | none => .error (i, ln)

/-- The bounded preview of one line (script.py line 82): the first 160
characters, with an ellipsis appended when the line was longer. -/
def linePreview (ln : String) : String :=
  let cs := ln.toList
  if cs.length > 160 then (cs.take 160).asString ++ "…" else ln

/-- parse_results_json of script.py lines 67-102 on the file's text,
parameterized by the dialect synonym table. -/
def parseResultsJsonWith (table : List (String × String)) (txt : String) :
    Except ExtractError (List (String × String)) :=
  let testsE : Except ExtractError (List Json) :=
    match jsonParse txt with
    | some data => extractTestsArray data
    | none =>
      match ndjsonObjs 1 (nonBlankLines txt) with
      | .error e => .error (ExtractError.ndjsonLineError e.1 (linePreview e.2) (pyTake 160 txt))
      | .ok objs => extractTestsArray (Json.jarr objs)
  match testsE with
  | .error e => .error e
  | .ok tests =>
    match buildEntries (canonStatus table) 0 [] tests with
    | .error e => .error e
    | .ok r => if r.isEmpty then .error ExtractError.zeroTests else .ok r

/-- parse_results_json of script.py. -/
def parseResultsJson (txt : String) : Except ExtractError (List (String × String)) :=
  parseResultsJsonWith canonTableGeneric txt

/-- C7: a structured input whose JSON document parses but yields zero test
entries makes the extractor fail with the zero-tests MalformedInputError
rather than return an empty ResultSet; in particular the empty array does. -/
theorem claim_c7_zero_tests_error :
    (∀ txt v tests, jsonParse txt = some v → extractTestsArray v = .ok tests →
        buildEntries (canonStatus canonTableGeneric) 0 [] tests = .ok [] →
          parseResultsJson txt = .error ExtractError.zeroTests)
      ∧ parseResultsJson "[]" = .error ExtractError.zeroTests := by
  constructor
  · intro txt v tests hp he hb
    rw [parseResultsJson, parseResultsJsonWith]
    simp only [hp, he, hb]
    rfl
  · rfl

/-- Witness for C7: the universal clause applied at the concrete input
consisting of an empty JSON array. -/
theorem claim_c7_zero_tests_error_witness :
    parseResultsJson "[]" = .error ExtractError.zeroTests :=
  claim_c7_zero_tests_error.1 "[]" (Json.jarr []) [] (by rfl) (by rfl) (by rfl)

theorem ndjsonObjs_error_of_firstBad :
    ∀ (ls : List String) (i j : Nat) (ln : String),
      firstBadLine i ls = some (j, ln) → ndjsonObjs i ls = .error (j, ln) := by
  intro ls
  induction ls with
  | nil => intro i j ln h; simp [firstBadLine] at h
  | cons l t ih =>
    intro i j ln h
    cases hp : jsonParse l with
    | some v =>
      rw [firstBadLine, hp] at h
      rw [ndjsonObjs, hp, ih (i + 1) j ln h]
    | none =>
      rw [firstBadLine, hp] at h
      have h' := Option.some.inj h
      rw [ndjsonObjs, hp, ← h']

/-- C6 (amended): when the whole-document parse fails and one of the
non-blank lines fails to parse as JSON, extraction fails with an error
carrying the 1-based index of the first offending line among the non-blank
lines of the input (which equals its line number within the input text
only when no blank line precedes it), a preview consisting of at most the
first 160 characters of that line (plus an ellipsis when truncated), and
the first 160 characters of the file's start. -/
theorem claim_c6_amended_line_indexing :
    ∀ txt (i : Nat) (ln : String), jsonParse txt = none →
      firstBadLine 1 (nonBlankLines txt) = some (i, ln) →
        parseResultsJson txt
            = .error (ExtractError.ndjsonLineError i (linePreview ln) (pyTake 160 txt))
          ∧ (linePreview ln).toList.take 160 = ln.toList.take 160
          ∧ (linePreview ln).toList.length ≤ 161
          ∧ (pyTake 160 txt).toList = txt.toList.take 160 := by
  intro txt i ln hp hb
  have he := ndjsonObjs_error_of_firstBad (nonBlankLines txt) 1 i ln hb
  refine ⟨?_, ?_, ?_, by rfl⟩
  · rw [parseResultsJson, parseResultsJsonWith]
    simp only [hp, he]
  · rw [linePreview]
    by_cases h : ln.toList.length > 160
    · rw [if_pos h]
      have hdata : ((ln.toList.take 160).asString ++ "…").toList
          = ln.toList.take 160 ++ "…".toList := by
        show ((ln.toList.take 160).asString ++ "…").data = _
        rw [String.data_append]
        rfl
      rw [hdata, List.take_append_eq_append_take]
      have hlen : (ln.toList.take 160).length = 160 := by
        rw [List.length_take]; omega
      rw [hlen, List.take_of_length_le (le_of_eq hlen), Nat.sub_self]
      simp
    · rw [if_neg h]
  · rw [linePreview]
    by_cases h : ln.toList.length > 160
    · rw [if_pos h]
      have hdata : ((ln.toList.take 160).asString ++ "…").toList
          = ln.toList.take 160 ++ "…".toList := by
        show ((ln.toList.take 160).asString ++ "…").data = _
        rw [String.data_append]
        rfl
      rw [hdata, List.length_append, List.length_take]
      have : min 160 ln.toList.length = 160 := by omega
      rw [this, show ("…".toList.length) = 1 from rfl]
    · rw [if_neg h]
      omega

/-- Witness for C6 (amended): a two-line input with no blank lines whose
second line is not JSON; the reported index 2 is also the line number in
the text. -/
theorem claim_c6_amended_line_indexing_witness :
    parseResultsJson "\x7b\"a\": 1\x7d\nnope"
        = .error (ExtractError.ndjsonLineError 2 (linePreview "nope")
            (pyTake 160 "\x7b\"a\": 1\x7d\nnope"))
      ∧ (linePreview "nope").toList.take 160 = "nope".toList.take 160
      ∧ (linePreview "nope").toList.length ≤ 161
      ∧ (pyTake 160 "\x7b\"a\": 1\x7d\nnope").toList
          = "\x7b\"a\": 1\x7d\nnope".toList.take 160 :=
  claim_c6_amended_line_indexing "\x7b\"a\": 1\x7d\nnope" 2 "nope" (by rfl) (by rfl)

/-- Counterexample for C6 as stated: in the input whose three text lines
are a JSON object, a blank line and the non-JSON line, the offending line
is the third line of the input text, yet the error reports line number 2,
because the extractor numbers only the non-blank lines. -/
theorem claim_c6_counterexample_blank_line_offset :
    parseResultsJson "\x7b\"a\": 1\x7d\n\nnot json"
        = .error (ExtractError.ndjsonLineError 2 "not json" "\x7b\"a\": 1\x7d\n\nnot json")
      ∧ (splitlines "\x7b\"a\": 1\x7d\n\nnot json")[2]? = some "not json"
      ∧ (splitlines "\x7b\"a\": 1\x7d\n\nnot json")[1]? = some ""
      ∧ (2 : Nat) ≠ 3 :=
  ⟨by rfl, by rfl, by rfl, by decide⟩

/-! ## Bracketed (gtest) log extractor (script_cpp.py lines 23-35, 111-186)

GTEST_OUTCOME_RE is anchored: an opening bracket, optional whitespace, one
of the tags OK, FAILED, SKIPPED, optional whitespace, the closing bracket,
at least one whitespace, a lazy non-empty name, an optional parenthesised
suffix preceded by whitespace, and optional trailing whitespace.  The loop
right-strips each line first, so the trailing whitespace class is always
empty, the whitespace run after the bracket never backtracks (the pattern
after it matches every non-empty remainder), and the captured name is the
shortest non-empty prefix whose suffix is empty or a whitespace run
followed by a parenthesised group reaching the end of the line. -/

/-- The tag alternation of GTEST_OUTCOME_RE, in source order. -/
def gtestTags : List String := ["OK", "FAILED", "SKIPPED"]

/-- Matches the optional suffix \s+\(.*\)\s*$ of GTEST_OUTCOME_RE (also the
pattern removed by _sanitize_gtest_name) at the start of the given text. -/
def parenSuffixOk (s : List Char) : Bool :=
  match s with
  | [] => false
  | c :: _ =>
    if isSpace c then
      match List.dropWhile isSpace s with
      | '(' :: t2 =>
        match (rstripL t2).getLast? with
        | some ch => ch = ')'
        | none => false
      | _ => false
    else false

/-- Valid text after the lazy name group of GTEST_OUTCOME_RE. -/
def gtestTailOk (s : List Char) : Bool := s.isEmpty || parenSuffixOk s

/-- Shortest non-empty name whose suffix satisfies gtestTailOk, as the lazy
name group captures on a right-stripped line. -/
def gtestNameScanAux : List Char → List Char → List Char
  | revName, [] => revName.reverse
  | revName, c :: r =>
    if gtestTailOk (c :: r) then revName.reverse
    else gtestNameScanAux (c :: revName) r

/-- GTEST_OUTCOME_RE.match on a right-stripped line: tag and name groups. -/
def gtestOutcomeMatch (line : String) : Option (String × String) :=
  match line.toList with
  | '[' :: r0 =>
    match tokenAt gtestTags (List.dropWhile isSpace r0) with
    | some (tag, r2) =>
      match List.dropWhile isSpace r2 with
      | ']' :: r4 =>
        match r4 with
        | c :: _ =>
          if isSpace c then
            match List.dropWhile isSpace r4 with
            | [] => none
            | n0 :: ns => some (tag, (gtestNameScanAux [n0] ns).asString)
          else none
        | [] => none
      | _ => none
    | none => none
  | _ => none

/-- GTEST_SUMMARY_FAIL_RE.match on a right-stripped line: since the line
has no trailing whitespace, the lazy name followed by \s*$ captures the
whole remainder after the bracketed FAILED marker. -/
def gtestSummaryMatch (line : String) : Option String :=
  match line.toList with
  | '[' :: r0 =>
    let r1 := List.dropWhile isSpace r0
    if "FAILED".toList.isPrefixOf r1 then
      match List.dropWhile isSpace (r1.drop 6) with
      | ']' :: r4 =>
        match r4 with
        | c :: _ =>
          if isSpace c then
            match List.dropWhile isSpace r4 with
            | [] => none
            | rest => some rest.asString
          else none
        | [] => none
      | _ => none
    else none
  | _ => none

/-- _sanitize_gtest_name of script_cpp.py lines 149-151: remove the
leftmost trailing parenthesised suffix, then strip. -/
def parenStripScanAux : List Char → List Char → List Char
  | revAcc, [] => revAcc.reverse
  | revAcc, c :: r =>
    if parenSuffixOk (c :: r) then revAcc.reverse
    else parenStripScanAux (c :: revAcc) r

/-- _sanitize_gtest_name of script_cpp.py. -/
def sanitizeGtestName (name : String) : String :=
  pyStrip (parenStripScanAux [] name.toList).asString

/-- One iteration of the parse_gtest_log text loop (script_cpp.py lines
164-181). -/
def gtestTextStep (m : List (String × String)) (raw : String) :
    List (String × String) :=
  let line := pyRstrip raw
  if line = "" then m
  else
    match gtestOutcomeMatch line with
    | some (tag, name) =>
      dictInsert m (sanitizeGtestName name) (canonCpp (pyUpper tag))
    | none =>
      match gtestSummaryMatch line with
      | some name => dictInsert m (sanitizeGtestName name) "FAILED"
      | none => m

/-- Per-case body of the _parse_gtest_json loops (script_cpp.py lines
123-145).  A Python AttributeError or TypeError raised on malformed input
becomes an error value, which parse_gtest_log propagates. -/
def gtestCaseStep (tsf : List (String × Json)) (acc : List (String × String))
    (tc : Json) : Except String (List (String × String)) :=
  match tc with
  | Json.jobj tcf =>
    match pyOr (jGetD tcf "classname" Json.jnull)
        (pyOr (jGetD tsf "name" Json.jnull) (Json.jstr "")) with
    | Json.jstr s =>
      let suite := pyStrip s
      let test := pyStrip (pyStr (jGetD tcf "name" (Json.jstr "")))
      if test = "" then .ok acc
      else
        let name := if suite = "" then test else suite ++ "." ++ test
        if pyUpper (pyStr (jGetD tcf "status" (Json.jstr ""))) = "SKIPPED"
            || pyUpper (pyStr (jGetD tcf "result" (Json.jstr ""))) = "SKIPPED" then
          .ok (dictInsert acc name "SKIPPED")
        else
          match dictGet? tcf "ok" with
          | some (Json.jbool b) =>
            .ok (dictInsert acc name (if b then "PASSED" else "FAILED"))
          | _ =>
            let res := pyUpper (pyStrip (pyStr (jGetD tcf "result" (Json.jstr ""))))
            if res = "PASSED" || res = "SUCCESS" || res = "COMPLETED" then
              .ok (dictInsert acc name "PASSED")
            else if res = "FAILED" || res = "FAILURE" then
              .ok (dictInsert acc name "FAILED")
            else if res = "SKIPPED" then .ok (dictInsert acc name "SKIPPED")
            else .ok acc
    | _ => .error "AttributeError: strip on a non-string suite name"
  | _ => .error "AttributeError: get on a non-object test case"

/-- Per-suite body of _parse_gtest_json (script_cpp.py lines 121-122):
cases = ts.get testsuite, or ts.get tests with empty-list default, or the
empty list, Python or picking the first truthy value. -/
def gtestSuiteStep (acc : List (String × String)) (ts : Json) :
    Except String (List (String × String)) :=
  match ts with
  | Json.jobj tsf =>
    match pyOr (jGetD tsf "testsuite" Json.jnull)
        (pyOr (jGetD tsf "tests" (Json.jarr [])) (Json.jarr [])) with
    | Json.jarr cs => cs.foldlM (gtestCaseStep tsf) acc
    | _ => .error "TypeError or AttributeError: cases value not a list of objects"
  | _ => .error "AttributeError: get on a non-object suite"

/-- _parse_gtest_json of script_cpp.py lines 111-147: any JSON parse
failure, a non-object document or a missing testsuites key yields the
empty dict; iterating a non-list testsuites value raises in Python, which
the error branches model (an empty string or object iterates zero times
and stays empty). -/
def parseGtestJsonModel (txt : String) : Except String (List (String × String)) :=
  match jsonParse txt with
  | none => .ok []
  | some (Json.jobj fields) =>
    match dictGet? fields "testsuites" with
    | none => .ok []
    | some (Json.jarr suites) => suites.foldlM gtestSuiteStep []
    | some (Json.jstr s) =>
      if s = "" then .ok []
      else .error "AttributeError: get on a non-object suite"
    | some (Json.jobj fs) =>
      if fs.isEmpty then .ok []
      else .error "AttributeError: get on a non-object suite"
    | some _ => .error "TypeError: testsuites value not iterable"
  | some _ => .ok []

/-- The text-scanning half of parse_gtest_log (script_cpp.py lines
163-186), including the zero-lines failure. -/
def gtestTextResult (txt : String) : Except String (List (String × String)) :=
  let r := (splitlines txt).foldl gtestTextStep []
  if r.isEmpty then
    .error "Parsed log but found zero gtest outcome lines. Check log format."
  else .ok r

/-- parse_gtest_log of script_cpp.py lines 153-186 on the file's text. -/
def parseGtestLog (txt : String) : Except String (List (String × String)) :=
  match parseGtestJsonModel txt with
  | .error e => .error e
  | .ok jr => if jr.isEmpty then gtestTextResult txt else .ok jr

/-! ## Systems-language (Rust) log extractor (script_rust.py lines 23-34,
112-175) -/

/-- Substring test, for the textual pre-filter of _parse_rust_json_lines. -/
def containsSub (needle : List Char) : List Char → Bool
  | [] => needle.isEmpty
  | c :: t => needle.isPrefixOf (c :: t) || containsSub needle t

/-- One iteration of the _parse_rust_json_lines loop (script_rust.py lines
114-136): strip the line, require it to start with an opening brace and to
contain the quoted keys type and event textually, then parse it as JSON,
silently skipping malformed lines, non-test records, empty names and
unknown events. -/
def rustJsonLineStep (m : List (String × String)) (raw : String) :
    List (String × String) :=
  let line := pyStrip raw
  if line = "" then m
  else
    match line.toList with
    | '{' :: _ =>
      if containsSub "\"type\"".toList line.toList
          && containsSub "\"event\"".toList line.toList then
        match jsonParse line with
        | none => m
        | some (Json.jobj fs) =>
          match dictGet? fs "type" with
          | some (Json.jstr t) =>
            if t = "test" then
              let name := pyStrip (pyStr (jGetD fs "name" (Json.jstr "")))
              if name = "" then m
              else
                let ev := pyLower (pyStrip (pyStr (jGetD fs "event" (Json.jstr ""))))
                if ev = "ok" then dictInsert m name "PASSED"
                else if ev = "failed" then dictInsert m name "FAILED"
                else if ev = "ignored" then dictInsert m name "SKIPPED"
                else m
            else m
          | _ => m
        | some _ => m
      else m
    | _ => m

/-- _parse_rust_json_lines of script_rust.py lines 112-136. -/
def parseRustJsonLines (txt : String) : List (String × String) :=
  (splitlines txt).foldl rustJsonLineStep []

/-- The status alternation of RUST_TEST_LINE_RE, in source order. -/
def rustStatusTokens : List String := ["ok", "FAILED", "ignored"]

/-- Matches \s+\.\.\.\s+(ok|FAILED|ignored)(?:\b.*)?$ at the start of the
given text: the part of RUST_TEST_LINE_RE after the lazy name group. -/
def rustTailAt (rest : List Char) : Option String :=
  match rest with
  | [] => none
  | c :: _ =>
    if isSpace c then
      let afterWs := List.dropWhile isSpace rest
      if "...".toList.isPrefixOf afterWs then
        match afterWs.drop 3 with
        | [] => none
        | d :: ds =>
          if isSpace d then
            match tokenAt rustStatusTokens (List.dropWhile isSpace (d :: ds)) with
            | some (t, tail) => if tailBoundaryOk tail then some t else none
            | none => none
          else none
      else none
    else none

/-- Lazy-name scan of RUST_TEST_LINE_RE from a fixed name start: shortest
name end whose suffix matches rustTailAt. -/
def rustNameScanAux : List Char → List Char → Option (String × String)
  | _, [] => none
  | revName, c :: r =>
    match rustTailAt (c :: r) with
    | some t => some (revName.reverse.asString, t)
    | none => rustNameScanAux (c :: revName) r

/-- Backtracking over the greedy whitespace run after the literal test
keyword: the run length is tried longest first, as the regex engine does,
so a name may begin inside the whitespace run when no later start works. -/
def rustTryStarts : Nat → List Char → Option (String × String)
  | 0, _ => none
  | k + 1, afterTest =>
    match afterTest.drop (k + 1) with
    | [] => rustTryStarts k afterTest
    | c :: r =>
      match rustNameScanAux [c] r with
      | some res => some res
      | none => rustTryStarts k afterTest

/-- RUST_TEST_LINE_RE.match on a right-stripped line. -/
def rustTextLineMatch (line : String) : Option (String × String) :=
  match line.toList with
  | 't' :: 'e' :: 's' :: 't' :: rest =>
    rustTryStarts (rest.takeWhile isSpace).length rest
  | _ => none

/-- One iteration of the _parse_rust_text_lines loop (script_rust.py lines
140-157). -/
def rustTextStep (m : List (String × String)) (raw : String) :
    List (String × String) :=
  let line := pyRstrip raw
  if line = "" then m
  else
    match rustTextLineMatch line with
    | none => m
    | some (name, statusRaw) =>
      let status := if statusRaw = "ok" then "PASSED"
        else if statusRaw = "FAILED" then "FAILED"
        else if statusRaw = "ignored" then "SKIPPED"
        else canonRust statusRaw
      dictInsert m (pyStrip name) status

/-- _parse_rust_text_lines of script_rust.py lines 138-158. -/
def parseRustTextLines (txt : String) : List (String × String) :=
  (splitlines txt).foldl rustTextStep []

/-- The text half of parse_rust_log (script_rust.py lines 170-175),
including the zero-lines failure. -/
def rustTextResult (txt : String) : Except String (List (String × String)) :=
  if (parseRustTextLines txt).isEmpty then
    .error "Parsed log but found zero Rust test outcome lines. Check log format or flags."
  else .ok (parseRustTextLines txt)

/-- parse_rust_log of script_rust.py lines 160-175 on the file's text. -/
def parseRustLog (txt : String) : Except String (List (String × String)) :=
  if (parseRustJsonLines txt).isEmpty then rustTextResult txt
  else .ok (parseRustJsonLines txt)

/-- C3: in both multi-pass extractors the text pass is consulted exactly
when the structured pass yields an empty mapping: an empty structured
result hands the whole outcome to the text pass, a non-empty structured
result is returned as is, and a document that fails to parse as JSON makes
the gtest structured pass yield the empty mapping (the rust structured
pass is per-line and empty whenever no line is a test record). -/
theorem claim_c3_structured_first_text_fallback :
    ∀ txt,
      ((parseGtestJsonModel txt = .ok [] → parseGtestLog txt = gtestTextResult txt)
        ∧ (∀ m, parseGtestJsonModel txt = .ok m → m ≠ [] → parseGtestLog txt = .ok m)
        ∧ (jsonParse txt = none → parseGtestJsonModel txt = .ok []))
      ∧ ((parseRustJsonLines txt = [] → parseRustLog txt = rustTextResult txt)
        ∧ (parseRustJsonLines txt ≠ [] →
            parseRustLog txt = .ok (parseRustJsonLines txt))) := by
  intro txt
  refine ⟨⟨?_, ?_, ?_⟩, ?_, ?_⟩
  · intro h
    rw [parseGtestLog, h]
    rfl
  · intro m h hm
    rw [parseGtestLog, h]
    cases m with
    | nil => exact absurd rfl hm
    | cons a t => rfl
  · intro h
    rw [parseGtestJsonModel, h]
  · intro h
    rw [parseRustLog, h]
    rfl
  · intro h
    cases hP : parseRustJsonLines txt with
    | nil => exact absurd hP h
    | cons a t => rw [parseRustLog, hP]; rfl

/-- Witness for C3: all four fallback clauses at concrete inputs — a gtest
JSON document with an empty testsuites array (structured pass empty, text
pass consulted), a gtest JSON document with one passing case (structured
pass returned), a rust text log (line pass empty, text fallback) and a
rust NDJSON test record (line pass returned). -/
theorem claim_c3_structured_first_text_fallback_witness :
    parseGtestLog "\x7b\"testsuites\": []\x7d"
        = gtestTextResult "\x7b\"testsuites\": []\x7d"
      ∧ parseGtestLog
            "\x7b\"testsuites\": [\x7b\"name\": \"S\", \"testsuite\": [\x7b\"name\": \"t\", \"result\": \"PASSED\"\x7d]\x7d]\x7d"
          = .ok [("S.t", "PASSED")]
      ∧ parseRustLog "test a ... ok" = rustTextResult "test a ... ok"
      ∧ parseRustLog "\x7b\"type\": \"test\", \"event\": \"ok\", \"name\": \"a\"\x7d"
          = .ok [("a", "PASSED")] :=
  ⟨(claim_c3_structured_first_text_fallback "\x7b\"testsuites\": []\x7d").1.1 (by rfl),
   (claim_c3_structured_first_text_fallback
      "\x7b\"testsuites\": [\x7b\"name\": \"S\", \"testsuite\": [\x7b\"name\": \"t\", \"result\": \"PASSED\"\x7d]\x7d]\x7d").1.2.1
     [("S.t", "PASSED")] (by rfl) (by simp),
   (claim_c3_structured_first_text_fallback "test a ... ok").2.1 (by rfl),
   (claim_c3_structured_first_text_fallback
      "\x7b\"type\": \"test\", \"event\": \"ok\", \"name\": \"a\"\x7d").2.2 (by decide)⟩

/-- C4: on the bracketed dialect the concrete log with a RUN and OK line
for T.One, a RUN and FAILED line for T.Two and a trailing summary FAILED
line for T.Two yields exactly the mapping T.One to PASSED and T.Two to
FAILED; RUN lines never touch the dict; and a bracketed FAILED line for
T.Two sets T.Two to FAILED whatever the dict already held, so a summary
FAILED after an earlier OK overwrites the PASSED outcome. -/
theorem claim_c4_bracketed_failed_overwrites_ok :
    parseGtestLog
        "[ RUN ] T.One\n[ OK ] T.One\n[ RUN ] T.Two\n[ FAILED ] T.Two\n[ FAILED ] T.Two"
        = .ok [("T.One", "PASSED"), ("T.Two", "FAILED")]
      ∧ (∀ m, gtestTextStep m "[ RUN ] T.One" = m)
      ∧ (∀ m, gtestTextStep m "[ RUN ] T.Two" = m)
      ∧ (∀ m, dictGet? (gtestTextStep m "[ FAILED ] T.Two") "T.Two" = some "FAILED") := by
  refine ⟨by rfl, fun m => rfl, fun m => rfl, fun m => ?_⟩
  rw [show gtestTextStep m "[ FAILED ] T.Two" = dictInsert m "T.Two" "FAILED" from rfl,
    dictGet?_dictInsert, if_pos rfl]

end Sweap
